import Mathlib

/-!
Verification of the capi2argo cluster operator core against its source.

Go strings are modelled as lists of characters (`GoStr`).  The pure helpers
of `controllers/argo_cluster.go` (naming policy, label maps, TLS validation
with Go standard base64 decoding) are embedded directly; the two revisions of
the `Reconcile` method (the inline-HTTP one and the one routed through the
`sendRequest` helper) are embedded as pure functions from an explicit
environment (the fetch outcome and the responses of the registry) to the
sequence of issued HTTP requests, the log trace and the returned error.
-/

set_option autoImplicit false

/-- Go strings, modelled as lists of characters. -/
abbrev GoStr := List Char

/-- Embeds Go `strings.HasSuffix`: true when the string ends with the suffix. -/
def goHasSuffix (s suf : GoStr) : Bool :=
  decide (suf.length ≤ s.length) && decide (s.drop (s.length - suf.length) = suf)

/-- Embeds Go `strings.TrimSuffix`: removes the trailing suffix once when present. -/
def goTrimSuffix (s suf : GoStr) : GoStr :=
  if goHasSuffix s suf then s.take (s.length - suf.length) else s

/-- Upper-case hexadecimal digit, as used by Go `net/url` escaping. -/
def hexDigit (n : Nat) : Char :=
  "0123456789ABCDEF".data.getD n '0'

/-- Embeds Go `url.QueryEscape` on the character level: unreserved characters
are kept, a space becomes a plus sign, anything else becomes a percent escape
of its code point modulo 256. -/
def goQueryEscape (s : GoStr) : GoStr :=
  s.flatMap fun c =>
    if ('A' ≤ c ∧ c ≤ 'Z') ∨ ('a' ≤ c ∧ c ≤ 'z') ∨ ('0' ≤ c ∧ c ≤ '9')
        ∨ c = '-' ∨ c = '_' ∨ c = '.' ∨ c = '~' then [c]
    else if c = ' ' then ['+']
    else ['%', hexDigit (c.toNat % 256 / 16), hexDigit (c.toNat % 16)]

/-! ## Go standard base64 (`encoding/base64`, `StdEncoding`) -/

/-- The standard base64 alphabet. -/
def b64Chars : GoStr :=
  "ABCDEFGHIJKLMNOPQRSTUVWXYZabcdefghijklmnopqrstuvwxyz0123456789+/".data

/-- Character of the standard alphabet at a six-bit index. -/
def b64Char (i : Nat) : Char := b64Chars.getD i 'A'

/-- Position of a character in the standard alphabet, `none` when absent
(this is the decode-map lookup of the Go decoder). -/
def b64Index (c : Char) : Option Nat := b64Chars.findIdx? (· == c)

/-- Embeds Go `StdEncoding.EncodeToString` on byte lists: three input bytes
become four alphabet characters; a final quantum of one or two bytes is
padded with `=`. -/
def goB64Encode : List Nat → GoStr
  | b1 :: b2 :: b3 :: rest =>
      b64Char (b1 / 4) :: b64Char (b1 % 4 * 16 + b2 / 16) ::
      b64Char (b2 % 16 * 4 + b3 / 64) :: b64Char (b3 % 64) :: goB64Encode rest
  | [b1, b2] => [b64Char (b1 / 4), b64Char (b1 % 4 * 16 + b2 / 16), b64Char (b2 % 16 * 4), '=']
  | [b1] => [b64Char (b1 / 4), b64Char (b1 % 4 * 16), '=', '=']
  | [] => []

/-- Embeds the quantum loop of Go `StdEncoding` decoding (default leniency:
unused trailing bits are not checked).  The input length must be a multiple
of four; padding may only close the final quantum. -/
def decodeGroups : GoStr → Option (List Nat)
  | [] => some []
  | c1 :: c2 :: c3 :: c4 :: rest =>
    match b64Index c1, b64Index c2 with
    | some i1, some i2 =>
      if c3 = '=' then
        if c4 = '=' ∧ rest = [] then some [i1 * 4 + i2 / 16] else none
      else
        match b64Index c3 with
        | some i3 =>
          if c4 = '=' then
            if rest = [] then some [i1 * 4 + i2 / 16, i2 % 16 * 16 + i3 / 4] else none
          else
            match b64Index c4 with
            | some i4 =>
              (decodeGroups rest).map fun bs =>
                (i1 * 4 + i2 / 16) :: (i2 % 16 * 16 + i3 / 4) :: (i3 % 4 * 64 + i4) :: bs
            | none => none
        | none => none
    | _, _ => none
  | _ => none

/-- Embeds Go `StdEncoding.DecodeString`: newline characters are ignored,
then the quantum loop runs.  Returns the decoded bytes or `none` on corrupt
input. -/
def goB64Decode (s : GoStr) : Option (List Nat) :=
  decodeGroups (s.filter fun c => !(c == '\r' || c == '\n'))

/-! ## Data model (`controllers/argo_cluster.go`) -/

/-- Embeds `k8s.io/apimachinery` `types.NamespacedName` (fields `Name`,
`Namespace`; the second is called `nspace` here because `namespace` is a
keyword). -/
structure NamespacedName where
  name : GoStr
  nspace : GoStr
deriving DecidableEq, Repr

/-- Embeds `ArgoTLS` (`config.tlsClientConfig`). -/
structure ArgoTLS where
  CaData : GoStr
  CertData : GoStr
  KeyData : GoStr
deriving DecidableEq, Repr

/-- Embeds `ArgoConfig` (`config`). -/
structure ArgoConfig where
  TLSClientConfig : ArgoTLS
deriving DecidableEq, Repr

/-- Go label maps (`map[string]string`) are modelled as association lists
with unique keys; `labelGet` and `labelSet` below give the map semantics. -/
abbrev LabelMap := List (GoStr × GoStr)

/-- Go map read `m[k]` for a string-valued map: the value stored at the key,
or the zero value (the empty string) when absent. -/
def labelGet (m : LabelMap) (k : GoStr) : GoStr :=
  match m with
  | [] => []
  | p :: rest => if p.1 = k then p.2 else labelGet rest k

/-- Go map write `m[k] = v`: replaces the value at an existing key, otherwise
appends the new pair. -/
def labelSet (m : LabelMap) (k v : GoStr) : LabelMap :=
  match m with
  | [] => [(k, v)]
  | p :: rest => if p.1 = k then (k, v) :: rest else p :: labelSet rest k v

/-- Embeds `ArgoCluster`. -/
structure ArgoCluster where
  NamespacedName : NamespacedName
  ClusterName : GoStr
  ClusterServer : GoStr
  ClusterLabels : LabelMap
  ClusterConfig : ArgoConfig
deriving DecidableEq, Repr

/-- Embeds `ClusterList` (the JSON shape of the registry listing). -/
structure ClusterList where
  Clusters : List ArgoCluster
deriving DecidableEq, Repr

/-- Embeds `GetArgoCommonLabels`: the ownership marker and the secret-type
marker. -/
def GetArgoCommonLabels : LabelMap :=
  [("capi-to-argocd/owned".data, "true".data),
   ("argocd.argoproj.io/secret-type".data, "cluster".data)]

/-- The `for key, value := range GetArgoCommonLabels()` merge loop of
`Reconcile` (the keys are distinct, so the Go iteration order does not
matter; the literal order is used). -/
def mergeCommonLabels (m : LabelMap) : LabelMap :=
  GetArgoCommonLabels.foldl (fun acc kv => labelSet acc kv.1 kv.2) m

/-- Process-wide configuration of the operator (the package-level variables
`ArgoNamespace`, `ArgoEndpoint`, `authToken`, `EnableGarbageCollection`,
`EnableNamespacedNames`), passed explicitly. -/
structure Config where
  argoNamespace : GoStr
  argoEndpoint : GoStr
  authToken : GoStr
  enableGarbageCollection : Bool
  enableNamespacedNames : Bool
deriving DecidableEq, Repr

/-- Embeds `BuildClusterName`: prepends `namespace + "-"` when namespaced
names are enabled. -/
def BuildClusterName (s nspace : GoStr) (cfg : Config) : GoStr :=
  (if cfg.enableNamespacedNames then nspace ++ "-".data else []) ++ s

/-- Embeds `BuildNamespacedName`: trims the `-kubeconfig` suffix, applies
`BuildClusterName`, prepends `cluster-`, and fixes the namespace to the
configured `ArgoNamespace`. -/
def BuildNamespacedName (s nspace : GoStr) (cfg : Config) : NamespacedName :=
  { name := "cluster-".data ++ BuildClusterName (goTrimSuffix s "-kubeconfig".data) nspace cfg
    nspace := cfg.argoNamespace }

/-- Errors of `ValidateClusterTLSConfig`: the `missing key on ArgoTLS config`
error for an empty field, or the base64 corrupt-input error propagated from
`DecodeString`. -/
inductive TLSError where
  | missingKey
  | corruptInput
deriving DecidableEq, Repr

/-- The loop body of `ValidateClusterTLSConfig` over the field list. -/
def validateTLSFields : List GoStr → Option TLSError
  | [] => none
  | v :: rest =>
    if v = [] then some TLSError.missingKey
    else if (goB64Decode v).isSome then validateTLSFields rest
    else some TLSError.corruptInput

/-- Embeds `ValidateClusterTLSConfig`: checks `CaData`, `CertData`, `KeyData`
in order for non-emptiness and valid standard base64; `none` means success. -/
def ValidateClusterTLSConfig (a : ArgoTLS) : Option TLSError :=
  validateTLSFields [a.CaData, a.CertData, a.KeyData]

/-- The source-cluster value extracted from the kubeconfig inside the CAPI
secret: the entries of `Clusters[0]` and `Users[0]` that `NewArgoCluster`
reads. -/
structure CapiKubeConfig where
  clusterName : GoStr
  server : GoStr
  caData : GoStr
  certData : GoStr
  keyData : GoStr
deriving DecidableEq, Repr

/-- The `CapiCluster` value as built by `NewCapiCluster(nn, ns)` and filled
by `Unmarshal` (name, namespace, parsed kubeconfig). -/
structure CapiCluster where
  name : GoStr
  nspace : GoStr
  kubeConfig : CapiKubeConfig
deriving DecidableEq, Repr

/-- The fetched CAPI secret, carrying the metadata that `NewArgoCluster`
reads plus the outcomes of the two external collaborators that live in the
absent `capi_cluster.go`: the secret type marker checked by
`ValidateCapiSecret`, and the result of `CapiCluster.Unmarshal` (`none`
when unmarshalling fails). -/
structure CapiSecret where
  metaName : GoStr
  metaNamespace : GoStr
  secretType : GoStr
  parse : Option CapiKubeConfig
deriving DecidableEq, Repr

/-- Embeds `NewArgoCluster`: assembles identity, cluster name, server URL,
provenance labels and the TLS configuration from the source cluster and the
secret metadata. -/
def NewArgoCluster (c : CapiCluster) (s : CapiSecret) (cfg : Config) : ArgoCluster :=
  { NamespacedName := BuildNamespacedName s.metaName s.metaNamespace cfg
    ClusterName := BuildClusterName c.kubeConfig.clusterName s.metaNamespace cfg
    ClusterServer := c.kubeConfig.server
    ClusterLabels :=
      [("capi-to-argocd/cluster-secret-name".data, c.name ++ "-kubeconfig".data),
       ("capi-to-argocd/cluster-namespace".data, c.nspace)]
    ClusterConfig :=
      { TLSClientConfig :=
          { CaData := c.kubeConfig.caData
            CertData := c.kubeConfig.certData
            KeyData := c.kubeConfig.keyData } } }

/-! ## Reconciliation engine (the two revisions of `Reconcile`) -/

/-- Modelled from the spec: `ValidateCapiNaming` (defined in a source file
that is not part of this corpus) checks that the secret name matches the
CAPI pattern `<clusterName>-kubeconfig`. -/
def ValidateCapiNaming (nn : NamespacedName) : Bool :=
  goHasSuffix nn.name "-kubeconfig".data

/-- Modelled from the spec: `ValidateCapiSecret` (defined in a source file
that is not part of this corpus) checks that the secret carries the CAPI
credential type marker `cluster.x-k8s.io/secret`. -/
def ValidateCapiSecret (s : CapiSecret) : Bool :=
  decide (s.secretType = "cluster.x-k8s.io/secret".data)

/-- The final header map of an HTTP request (`http.Header.Set` overwrites,
so only the last value per key matters; the code only ever sets
`Content-Type` and `Authorization`). -/
structure Headers where
  contentType : Option GoStr
  authorization : Option GoStr
deriving DecidableEq, Repr

/-- Fresh header map of `http.NewRequest`. -/
def emptyHeaders : Headers := { contentType := none, authorization := none }

/-- A call of `req.Header.Set("Content-Type", v)`. -/
def setContentType (h : Headers) (v : GoStr) : Headers := { h with contentType := some v }

/-- A call of `req.Header.Set("Authorization", v)`. -/
def setAuthorization (h : Headers) (v : GoStr) : Headers := { h with authorization := some v }

/-- The value `fmt.Sprintf("Bearer %s", authToken)`. -/
def bearerValue (cfg : Config) : GoStr := "Bearer ".data ++ cfg.authToken

/-- Headers as set by the inline-HTTP revision on every request:
`Content-Type: application/json; charset=utf-8` then `Authorization`. -/
def headersV0 (cfg : Config) : Headers :=
  setAuthorization (setContentType emptyHeaders "application/json; charset=utf-8".data)
    (bearerValue cfg)

/-- Headers as set by `sendRequest`: with a body it first sets
`Content-Type: application/json`, then in all cases `Authorization`
followed by `Content-Type: application/json; charset=utf-8`. -/
def headersV1 (cfg : Config) (hasBody : Bool) : Headers :=
  setContentType
    (setAuthorization (if hasBody then setContentType emptyHeaders "application/json".data
                       else emptyHeaders)
      (bearerValue cfg))
    "application/json; charset=utf-8".data

/-- An issued registry request.  The body of a `POST`/`PUT` is the value
passed to `json.Marshal` (marshalling an `ArgoCluster` is deterministic, so
the value itself stands for its serialization). -/
structure HttpRequest where
  method : GoStr
  url : GoStr
  headers : Headers
  body : Option ArgoCluster
deriving DecidableEq, Repr

/-- Request construction of the inline-HTTP revision. -/
def mkRequestV0 (cfg : Config) (method url : GoStr) (body : Option ArgoCluster) : HttpRequest :=
  { method := method, url := url, headers := headersV0 cfg, body := body }

/-- Request construction of the `sendRequest` revision. -/
def mkRequestV1 (cfg : Config) (method url : GoStr) (body : Option ArgoCluster) : HttpRequest :=
  { method := method, url := url, headers := headersV1 cfg body.isSome, body := body }

/-- The collection endpoint `https://<endpoint>/api/v1/clusters`. -/
def clustersURL (cfg : Config) : GoStr :=
  "https://".data ++ cfg.argoEndpoint ++ "/api/v1/clusters".data

/-- The garbage-collection endpoint
`https://<endpoint>/api/v1/clusters/<namespace>?id.type=name`. -/
def deleteURL (cfg : Config) (nspace : GoStr) : GoStr :=
  "https://".data ++ cfg.argoEndpoint ++ "/api/v1/clusters/".data ++ nspace
    ++ "?id.type=name".data

/-- The per-server endpoint
`https://<endpoint>/api/v1/clusters/<url-escaped server>`. -/
def serverURL (cfg : Config) (server : GoStr) : GoStr :=
  "https://".data ++ cfg.argoEndpoint ++ "/api/v1/clusters/".data ++ goQueryEscape server

/-- Log levels of `logr` calls in `Reconcile`. -/
inductive LogLevel where
  | info
  | error
deriving DecidableEq, Repr

/-- One log line. -/
structure LogEntry where
  level : LogLevel
  msg : GoStr
deriving DecidableEq, Repr

/-- Shorthand for an info log line. -/
def logI (s : String) : LogEntry := { level := LogLevel.info, msg := s.data }

/-- Shorthand for an error log line. -/
def logE (s : String) : LogEntry := { level := LogLevel.error, msg := s.data }

/-- The distinct error values a cycle can return (Go `error` values are
compared by identity of their origin here). -/
inductive RecError where
  | getError
  | capiTypeError
  | capiUnmarshalError
  | transportError
  | readError
  | jsonDecodeError
deriving DecidableEq, Repr

/-- Outcome of the `r.Get` fetch of the CAPI secret. -/
inductive GetResult where
  | found (s : CapiSecret)
  | notFound
  | otherErr
deriving DecidableEq, Repr

/-- Behaviour of one registry HTTP response: whether `client.Do` fails,
whether reading the response body fails, and whether the status is
`200 OK`. -/
structure CallResp where
  transportErr : Bool
  readErr : Bool
  status200 : Bool
deriving DecidableEq, Repr

/-- Behaviour of the response to the listing `GET`: transport and body-read
outcomes plus the result of `json.Unmarshal` on the returned bytes (`none`
when decoding fails). -/
structure ListResp where
  transportErr : Bool
  readErr : Bool
  decode : Option (List ArgoCluster)
deriving DecidableEq, Repr

/-- The environment of one reconciliation cycle: the fetch outcome and the
responses the registry gives to the (at most two) issued calls. -/
structure RecEnv where
  getResult : GetResult
  deleteResp : CallResp
  listResp : ListResp
  mutResp : CallResp
deriving DecidableEq, Repr

/-- Result of one cycle: the issued requests in order, the log trace, and
the returned error (`none` is a clean return). -/
structure ReconcileOut where
  requests : List HttpRequest
  logs : List LogEntry
  err : Option RecError
deriving DecidableEq, Repr

/-- Error outcome of `sendRequest` for a given response behaviour: a
transport failure or a body-read failure; the HTTP status is never
inspected. -/
def sendRequestErr (resp : CallResp) : Option RecError :=
  if resp.transportErr then some RecError.transportError
  else if resp.readErr then some RecError.readError
  else none

/-- The match condition of the listing loop in `Reconcile`: the server URL
of the entry equals the built server URL and the labels carry
`capi-to-argocd/owned` with value `true`. -/
def ownedMatch (server : GoStr) (c : ArgoCluster) : Prop :=
  c.ClusterServer = server ∧
    labelGet c.ClusterLabels "capi-to-argocd/owned".data = "true".data

instance (server : GoStr) (c : ArgoCluster) : Decidable (ownedMatch server c) :=
  inferInstanceAs (Decidable (_ ∧ _))

/-- The matching loop of `Reconcile`: scans the listing with `ownedMatch`;
the loop has no break, every later match overwrites `existingCluster`. -/
def scanClusters (server : GoStr) (clusters : List ArgoCluster) : Option ArgoCluster :=
  clusters.foldl (fun acc c => if ownedMatch server c then some c else acc) none

/-- The construction of `argoCluster` in `Reconcile`: trim the secret name,
build the `CapiCluster`, map it with `NewArgoCluster`, then merge the common
labels. -/
def buildArgo (cfg : Config) (req : NamespacedName) (s : CapiSecret)
    (k : CapiKubeConfig) : ArgoCluster :=
  let nn := goTrimSuffix req.name "-kubeconfig".data
  let capiCluster : CapiCluster := { name := nn, nspace := req.nspace, kubeConfig := k }
  let a := NewArgoCluster capiCluster s cfg
  { a with ClusterLabels := mergeCommonLabels a.ClusterLabels }

/-- The sequential three-field diff of the update branch: each differing
field of the existing entry is overwritten by the built value and marks the
entry as changed.  Returns the changed flag and the final entry. -/
def diffExisting (existing argo : ArgoCluster) : Bool × ArgoCluster :=
  let s1 := if existing.ClusterName ≠ argo.ClusterName
    then (true, { existing with ClusterName := argo.ClusterName })
    else (false, existing)
  let s2 := if s1.2.ClusterConfig.TLSClientConfig.CaData ≠ argo.ClusterConfig.TLSClientConfig.CaData
    then (true, { s1.2 with ClusterConfig := { TLSClientConfig :=
      { s1.2.ClusterConfig.TLSClientConfig with CaData := argo.ClusterConfig.TLSClientConfig.CaData } } })
    else s1
  let s3 := if s2.2.ClusterConfig.TLSClientConfig.CertData ≠ argo.ClusterConfig.TLSClientConfig.CertData
    then (true, { s2.2 with ClusterConfig := { TLSClientConfig :=
      { s2.2.ClusterConfig.TLSClientConfig with CertData := argo.ClusterConfig.TLSClientConfig.CertData } } })
    else s2
  s3

/-- Embeds the `sendRequest` revision of `Reconcile` (the one routing all
registry calls through the helper).  The returned `ctrl.Result` is always
the zero value, so only the error is modelled.  Note that in this revision
the error of the listing `sendRequest` call is discarded: a transport or
read failure leaves nil body bytes, and `json.Unmarshal` then fails with a
JSON decode error. -/
def ReconcileV1 (cfg : Config) (req : NamespacedName) (env : RecEnv) : ReconcileOut :=
  if ValidateCapiNaming req = false then { requests := [], logs := [], err := none }
  else
    match env.getResult with
    | GetResult.otherErr => { requests := [], logs := [], err := some RecError.getError }
    | GetResult.notFound =>
      if cfg.enableGarbageCollection then
        let r := mkRequestV1 cfg "DELETE".data (deleteURL cfg req.nspace) none
        match sendRequestErr env.deleteResp with
        | some e =>
          { requests := [r], logs := [logE "Error on reconcile/delete"], err := some e }
        | none =>
          { requests := [r], logs := [logI "Deleted successfully of ArgoSecret"], err := none }
      else { requests := [], logs := [], err := none }
    | GetResult.found s =>
      let logs0 := [logI "Fetched CapiSecret"]
      if ValidateCapiSecret s = false then
        { requests := [],
          logs := logs0 ++ [logI "Ignoring secret as it is missing proper CAPI type"],
          err := some RecError.capiTypeError }
      else
        match s.parse with
        | none =>
          { requests := [], logs := logs0 ++ [logE "Failed to unmarshal CapiCluster"],
            err := some RecError.capiUnmarshalError }
        | some k =>
          let argo := buildArgo cfg req s k
          let getReq := mkRequestV1 cfg "GET".data (clustersURL cfg) none
          let listBytesOk := !env.listResp.transportErr && !env.listResp.readErr
          match (if listBytesOk then env.listResp.decode else none) with
          | none =>
            { requests := [getReq], logs := logs0 ++ [logE "Error decoding JSON response"],
              err := some RecError.jsonDecodeError }
          | some clusters =>
            match scanClusters argo.ClusterServer clusters with
            | none =>
              let postReq := mkRequestV1 cfg "POST".data (clustersURL cfg) (some argo)
              match sendRequestErr env.mutResp with
              | some e =>
                { requests := [getReq, postReq],
                  logs := logs0 ++ [logE "Error on creating Cluster"], err := some e }
              | none =>
                { requests := [getReq, postReq],
                  logs := logs0 ++ [logI "Created new ArgoSecret"], err := none }
            | some existing =>
              let logs1 := logs0 ++ [logI "Checking if ArgoSecret is out-of-sync with"]
              let d := diffExisting existing argo
              if d.1 then
                let putReq := mkRequestV1 cfg "PUT".data (serverURL cfg d.2.ClusterServer) (some d.2)
                match sendRequestErr env.mutResp with
                | some e =>
                  { requests := [getReq, putReq],
                    logs := logs1 ++ [logI "Updating out-of-sync ArgoSecret", logE "Error on Updating"],
                    err := some e }
                | none =>
                  { requests := [getReq, putReq],
                    logs := logs1 ++ [logI "Updating out-of-sync ArgoSecret",
                                      logI "Updated successfully of ArgoSecret"],
                    err := none }
              else { requests := [getReq], logs := logs1, err := none }

/-- Embeds the inline-HTTP revision of `Reconcile` (requests built with
`http.NewRequest` at each site).  Differences from the `sendRequest`
revision that show in this model: the listing transport and body-read
failures return their own errors; mutation response bodies are never read;
a non-`200 OK` status on the `DELETE` is logged as an error and returns the
nil error early; a non-`200 OK` status on the `PUT` logs an error and falls
through to the success return. -/
def ReconcileV0 (cfg : Config) (req : NamespacedName) (env : RecEnv) : ReconcileOut :=
  if ValidateCapiNaming req = false then { requests := [], logs := [], err := none }
  else
    match env.getResult with
    | GetResult.otherErr => { requests := [], logs := [], err := some RecError.getError }
    | GetResult.notFound =>
      if cfg.enableGarbageCollection then
        let r := mkRequestV0 cfg "DELETE".data (deleteURL cfg req.nspace) none
        if env.deleteResp.transportErr then
          { requests := [r], logs := [logE "Error on dispatching request"],
            err := some RecError.transportError }
        else if env.deleteResp.status200 = false then
          { requests := [r], logs := [logE "Error while updating"], err := none }
        else
          { requests := [r], logs := [logI "Deleted successfully of ArgoSecret"], err := none }
      else { requests := [], logs := [], err := none }
    | GetResult.found s =>
      let logs0 := [logI "Fetched CapiSecret"]
      if ValidateCapiSecret s = false then
        { requests := [],
          logs := logs0 ++ [logI "Ignoring secret as it is missing proper CAPI type"],
          err := some RecError.capiTypeError }
      else
        match s.parse with
        | none =>
          { requests := [], logs := logs0 ++ [logE "Failed to unmarshal CapiCluster"],
            err := some RecError.capiUnmarshalError }
        | some k =>
          let argo := buildArgo cfg req s k
          let getReq := mkRequestV0 cfg "GET".data (clustersURL cfg) none
          if env.listResp.transportErr then
            { requests := [getReq], logs := logs0 ++ [logE "Error on dispatching request"],
              err := some RecError.transportError }
          else if env.listResp.readErr then
            { requests := [getReq], logs := logs0 ++ [logE "Error reading response body"],
              err := some RecError.readError }
          else
            match env.listResp.decode with
            | none =>
              { requests := [getReq], logs := logs0 ++ [logE "Error decoding JSON response"],
                err := some RecError.jsonDecodeError }
            | some clusters =>
              match scanClusters argo.ClusterServer clusters with
              | none =>
                let postReq := mkRequestV0 cfg "POST".data (clustersURL cfg) (some argo)
                if env.mutResp.transportErr then
                  { requests := [getReq, postReq],
                    logs := logs0 ++ [logE "Error on dispatching request"],
                    err := some RecError.transportError }
                else
                  { requests := [getReq, postReq],
                    logs := logs0 ++ [logI "Created new ArgoSecret"], err := none }
              | some existing =>
                let logs1 := logs0 ++ [logI "Checking if ArgoSecret is out-of-sync with"]
                let d := diffExisting existing argo
                if d.1 then
                  let putReq := mkRequestV0 cfg "PUT".data (serverURL cfg d.2.ClusterServer) (some d.2)
                  if env.mutResp.transportErr then
                    { requests := [getReq, putReq],
                      logs := logs1 ++ [logI "Updating out-of-sync ArgoSecret",
                                        logE "Error on dispatching request"],
                      err := some RecError.transportError }
                  else if env.mutResp.status200 = false then
                    { requests := [getReq, putReq],
                      logs := logs1 ++ [logI "Updating out-of-sync ArgoSecret",
                                        logE "Error while updating",
                                        logI "Updated successfully of ArgoSecret"],
                      err := none }
                  else
                    { requests := [getReq, putReq],
                      logs := logs1 ++ [logI "Updating out-of-sync ArgoSecret",
                                        logI "Updated successfully of ArgoSecret"],
                      err := none }
                else { requests := [getReq], logs := logs1, err := none }

/-! ## Helper lemmas -/

theorem goHasSuffix_append (x suf : GoStr) : goHasSuffix (x ++ suf) suf = true := by
  simp [goHasSuffix, List.length_append, List.drop_left]

theorem goTrimSuffix_append (x suf : GoStr) : goTrimSuffix (x ++ suf) suf = x := by
  simp [goTrimSuffix, goHasSuffix_append, List.length_append, List.take_left]

theorem goTrimSuffix_of_not_suffix (s suf : GoStr) (h : goHasSuffix s suf = false) :
    goTrimSuffix s suf = s := by
  simp [goTrimSuffix, h]

theorem scanClusters_no_match (server : GoStr) (l : List ArgoCluster)
    (acc : Option ArgoCluster) (h : ∀ c ∈ l, ¬ ownedMatch server c) :
    l.foldl (fun acc c => if ownedMatch server c then some c else acc) acc = acc := by
  induction l generalizing acc with
  | nil => rfl
  | cons x xs ih =>
    have hx : ¬ ownedMatch server x := h x (by simp)
    simp only [List.foldl_cons, if_neg hx]
    exact ih acc fun c hc => h c (by simp [hc])

theorem scanClusters_none (server : GoStr) (l : List ArgoCluster)
    (h : ∀ x ∈ l, ¬ ownedMatch server x) : scanClusters server l = none :=
  scanClusters_no_match server l none h

/-! ## Base64 round-trip lemmas -/

theorem b64Index_b64Char_fin : ∀ i : Fin 64, b64Index (b64Char i.val) = some i.val := by decide

theorem b64Index_b64Char (i : Nat) (h : i < 64) : b64Index (b64Char i) = some i :=
  b64Index_b64Char_fin ⟨i, h⟩

theorem b64Char_fin_spec :
    ∀ i : Fin 64, b64Char i.val ≠ '=' ∧ b64Char i.val ≠ '\r' ∧ b64Char i.val ≠ '\n' := by
  decide

theorem b64Char_ne_pad (i : Nat) (h : i < 64) : b64Char i ≠ '=' :=
  (b64Char_fin_spec ⟨i, h⟩).1

theorem b64Char_not_crlf (i : Nat) : b64Char i ≠ '\r' ∧ b64Char i ≠ '\n' := by
  by_cases h : i < 64
  · exact (b64Char_fin_spec ⟨i, h⟩).2
  · have hi : b64Char i = 'A' := by
      unfold b64Char
      apply List.getD_eq_default
      have : b64Chars.length = 64 := by decide
      omega
    rw [hi]
    exact ⟨by decide, by decide⟩

theorem crlfKeep_b64Char (i : Nat) : (!(b64Char i == '\r' || b64Char i == '\n')) = true := by
  have h := b64Char_not_crlf i
  simp only [Bool.not_eq_true', Bool.or_eq_false_iff, beq_eq_false_iff_ne]
  exact h

theorem crlfKeep_pad : (!('=' == '\r' || '=' == '\n')) = true := by decide

theorem filter_crlf_goB64Encode (bs : List Nat) :
    (goB64Encode bs).filter (fun c => !(c == '\r' || c == '\n')) = goB64Encode bs := by
  induction bs using goB64Encode.induct with
  | case1 b1 b2 b3 rest ih =>
    simp only [goB64Encode, List.filter_cons, crlfKeep_b64Char, if_pos, ih]
  | case2 b1 b2 =>
    simp only [goB64Encode, List.filter_cons, List.filter_nil, crlfKeep_b64Char, crlfKeep_pad,
      if_pos]
  | case3 b1 =>
    simp only [goB64Encode, List.filter_cons, List.filter_nil, crlfKeep_b64Char, crlfKeep_pad,
      if_pos]
  | case4 => rfl

theorem decodeGroups_goB64Encode (bs : List Nat) (h : ∀ b ∈ bs, b < 256) :
    decodeGroups (goB64Encode bs) = some bs := by
  induction bs using goB64Encode.induct with
  | case1 b1 b2 b3 rest ih =>
    have hb1 : b1 < 256 := h b1 (by simp)
    have hb2 : b2 < 256 := h b2 (by simp)
    have hb3 : b3 < 256 := h b3 (by simp)
    have h1 : b1 / 4 < 64 := by omega
    have h2 : b1 % 4 * 16 + b2 / 16 < 64 := by omega
    have h3 : b2 % 16 * 4 + b3 / 64 < 64 := by omega
    have h4 : b3 % 64 < 64 := by omega
    have ih2 := ih fun b hb => h b (by simp [hb])
    rw [goB64Encode, decodeGroups, b64Index_b64Char _ h1, b64Index_b64Char _ h2,
      b64Index_b64Char _ h3, b64Index_b64Char _ h4]
    simp only [if_neg (b64Char_ne_pad _ h3), if_neg (b64Char_ne_pad _ h4), ih2, Option.map_some]
    have e1 : b1 / 4 * 4 + (b1 % 4 * 16 + b2 / 16) / 16 = b1 := by omega
    have e2 : (b1 % 4 * 16 + b2 / 16) % 16 * 16 + (b2 % 16 * 4 + b3 / 64) / 4 = b2 := by omega
    have e3 : (b2 % 16 * 4 + b3 / 64) % 4 * 64 + b3 % 64 = b3 := by omega
    rw [e1, e2, e3]
    rfl
  | case2 b1 b2 =>
    have hb1 : b1 < 256 := h b1 (by simp)
    have hb2 : b2 < 256 := h b2 (by simp)
    have h1 : b1 / 4 < 64 := by omega
    have h2 : b1 % 4 * 16 + b2 / 16 < 64 := by omega
    have h3 : b2 % 16 * 4 < 64 := by omega
    rw [goB64Encode, decodeGroups, b64Index_b64Char _ h1, b64Index_b64Char _ h2,
      b64Index_b64Char _ h3]
    simp only [if_neg (b64Char_ne_pad _ h3), if_pos rfl, if_pos (And.intro rfl rfl)]
    have e1 : b1 / 4 * 4 + (b1 % 4 * 16 + b2 / 16) / 16 = b1 := by omega
    have e2 : (b1 % 4 * 16 + b2 / 16) % 16 * 16 + b2 % 16 * 4 / 4 = b2 := by omega
    rw [e1, e2]
    rfl
  | case3 b1 =>
    have hb1 : b1 < 256 := h b1 (by simp)
    have h1 : b1 / 4 < 64 := by omega
    have h2 : b1 % 4 * 16 < 64 := by omega
    rw [goB64Encode, decodeGroups, b64Index_b64Char _ h1, b64Index_b64Char _ h2]
    simp only [if_pos rfl, if_pos (And.intro rfl rfl)]
    have e1 : b1 / 4 * 4 + b1 % 4 * 16 / 16 = b1 := by omega
    rw [e1]
    rfl
  | case4 => rfl

theorem goB64Decode_goB64Encode (bs : List Nat) (h : ∀ b ∈ bs, b < 256) :
    goB64Decode (goB64Encode bs) = some bs := by
  unfold goB64Decode
  rw [filter_crlf_goB64Encode, decodeGroups_goB64Encode bs h]

theorem goB64Encode_ne_nil (bs : List Nat) (h : bs ≠ []) : goB64Encode bs ≠ [] := by
  match bs with
  | [] => exact absurd rfl h
  | [b1] => simp [goB64Encode]
  | [b1, b2] => simp [goB64Encode]
  | b1 :: b2 :: b3 :: rest => simp [goB64Encode]

/-! ## Claim theorems -/

/-- C7: `ValidateClusterTLSConfig` checks the fields in the order CA data,
certificate data, key data, short-circuiting at the first failure; an empty
checked field gives the missing-key error, a non-empty checked field that is
not valid standard base64 gives the corrupt-input error, and the validator
succeeds exactly when all three fields are non-empty and valid standard
base64.  The embedded function is pure, so it has no side effects. -/
theorem C7_validateTLS (a : ArgoTLS) :
    (ValidateClusterTLSConfig a =
      if a.CaData = [] then some TLSError.missingKey
      else if (goB64Decode a.CaData).isSome = false then some TLSError.corruptInput
      else if a.CertData = [] then some TLSError.missingKey
      else if (goB64Decode a.CertData).isSome = false then some TLSError.corruptInput
      else if a.KeyData = [] then some TLSError.missingKey
      else if (goB64Decode a.KeyData).isSome = false then some TLSError.corruptInput
      else none) ∧
    (ValidateClusterTLSConfig a = none ↔
      a.CaData ≠ [] ∧ (goB64Decode a.CaData).isSome = true ∧
      a.CertData ≠ [] ∧ (goB64Decode a.CertData).isSome = true ∧
      a.KeyData ≠ [] ∧ (goB64Decode a.KeyData).isSome = true) := by
  simp only [ValidateClusterTLSConfig, validateTLSFields]
  constructor
  · split_ifs <;> simp_all
  · split_ifs <;> simp_all

/-- C8 counterexample: the standard base64 encoding of the empty byte string
is the empty string, which `ValidateClusterTLSConfig` rejects as a missing
field, so the round-trip claim fails for empty byte strings. -/
theorem C8_counterexample :
    ValidateClusterTLSConfig
        { CaData := goB64Encode [], CertData := goB64Encode [], KeyData := goB64Encode [] }
      ≠ none ∧
    ValidateClusterTLSConfig
        { CaData := goB64Encode [], CertData := goB64Encode [], KeyData := goB64Encode [] }
      = some TLSError.missingKey := by
  decide

/-- C8 (amended): for arbitrary non-empty byte strings a, b, c, building a
TLS configuration whose fields are their standard base64 encodings and
validating it succeeds. -/
theorem C8_roundtrip (a b c : List Nat)
    (ha : ∀ x ∈ a, x < 256) (hb : ∀ x ∈ b, x < 256) (hc : ∀ x ∈ c, x < 256)
    (na : a ≠ []) (nb : b ≠ []) (nc : c ≠ []) :
    ValidateClusterTLSConfig
      { CaData := goB64Encode a, CertData := goB64Encode b, KeyData := goB64Encode c }
      = none := by
  simp [ValidateClusterTLSConfig, validateTLSFields, goB64Encode_ne_nil a na,
    goB64Encode_ne_nil b nb, goB64Encode_ne_nil c nc, goB64Decode_goB64Encode a ha,
    goB64Decode_goB64Encode b hb, goB64Decode_goB64Encode c hc]

theorem C8_roundtrip_witness :
    ValidateClusterTLSConfig
      { CaData := goB64Encode [0], CertData := goB64Encode [1, 2],
        KeyData := goB64Encode [3, 4, 5] } = none :=
  C8_roundtrip [0] [1, 2] [3, 4, 5] (by decide) (by decide) (by decide)
    (by decide) (by decide) (by decide)

/-- C9: `BuildNamespacedName` strips a trailing `-kubeconfig` exactly once
when present (and leaves the name unchanged when absent, whatever hyphens it
contains), applies the namespace-qualification policy, prepends `cluster-`,
and fixes the namespace of the identifier to the configured registry
namespace. -/
theorem C9_buildNamespacedName (cfg : Config) (x nspace s : GoStr) :
    BuildNamespacedName (x ++ "-kubeconfig".data) nspace cfg =
      { name := "cluster-".data ++
          ((if cfg.enableNamespacedNames then nspace ++ "-".data else []) ++ x),
        nspace := cfg.argoNamespace } ∧
    (goHasSuffix s "-kubeconfig".data = false →
      BuildNamespacedName s nspace cfg =
        { name := "cluster-".data ++
            ((if cfg.enableNamespacedNames then nspace ++ "-".data else []) ++ s),
          nspace := cfg.argoNamespace }) := by
  constructor
  · unfold BuildNamespacedName BuildClusterName
    rw [goTrimSuffix_append]
  · intro h
    unfold BuildNamespacedName BuildClusterName
    rw [goTrimSuffix_of_not_suffix _ _ h]

theorem C9_buildNamespacedName_witness :
    BuildNamespacedName "prod-kubeconfig".data "team-a".data
        ⟨"argocd".data, "e".data, "t".data, false, true⟩ =
      { name := "cluster-team-a-prod".data, nspace := "argocd".data } ∧
    BuildNamespacedName "prod".data "team-a".data
        ⟨"argocd".data, "e".data, "t".data, false, false⟩ =
      { name := "cluster-prod".data, nspace := "argocd".data } := by
  constructor
  · have h := (C9_buildNamespacedName ⟨"argocd".data, "e".data, "t".data, false, true⟩
      "prod".data "team-a".data "prod".data).1
    have e : "prod".data ++ "-kubeconfig".data = "prod-kubeconfig".data := by decide
    rw [e] at h
    rw [h]
    decide
  · have h := (C9_buildNamespacedName ⟨"argocd".data, "e".data, "t".data, false, false⟩
      "x".data "team-a".data "prod".data).2 (by decide)
    rw [h]
    decide

/-! ## Concrete fixtures for counterexamples and witnesses -/

/-- Example configuration (garbage collection off, plain names). -/
def exCfg : Config :=
  { argoNamespace := "argocd".data, argoEndpoint := "argo.example".data,
    authToken := "token".data, enableGarbageCollection := false,
    enableNamespacedNames := false }

/-- Example configuration with garbage collection enabled. -/
def exCfgGC : Config := { exCfg with enableGarbageCollection := true }

/-- Example parsed kubeconfig with valid base64 TLS data. -/
def exK : CapiKubeConfig :=
  { clusterName := "c1".data, server := "srv".data, caData := "QUFB".data,
    certData := "QkJC".data, keyData := "Q0ND".data }

/-- Example fetched CAPI secret with the proper type marker. -/
def exSecret : CapiSecret :=
  { metaName := "c1-kubeconfig".data, metaNamespace := "ns1".data,
    secretType := "cluster.x-k8s.io/secret".data, parse := some exK }

/-- Example reconcile request matching the CAPI naming pattern. -/
def exReq : NamespacedName := { name := "c1-kubeconfig".data, nspace := "ns1".data }

/-- A well-behaved HTTP response. -/
def okResp : CallResp := { transportErr := false, readErr := false, status200 := true }

/-- First ownership-marked listing entry with server `srv`. -/
def exEntryA : ArgoCluster :=
  { NamespacedName := { name := "a".data, nspace := "argocd".data },
    ClusterName := "nameA".data, ClusterServer := "srv".data,
    ClusterLabels := [("capi-to-argocd/owned".data, "true".data)],
    ClusterConfig := { TLSClientConfig :=
      { CaData := "caA".data, CertData := "certA".data, KeyData := "keyA".data } } }

/-- Second ownership-marked listing entry with the same server `srv`. -/
def exEntryB : ArgoCluster :=
  { NamespacedName := { name := "b".data, nspace := "argocd".data },
    ClusterName := "nameB".data, ClusterServer := "srv".data,
    ClusterLabels := [("capi-to-argocd/owned".data, "true".data)],
    ClusterConfig := { TLSClientConfig :=
      { CaData := "caB".data, CertData := "certB".data, KeyData := "keyB".data } } }

/-- Environment whose listing holds the two duplicate owned entries. -/
def exEnvC2 : RecEnv :=
  { getResult := GetResult.found exSecret, deleteResp := okResp,
    listResp := { transportErr := false, readErr := false, decode := some [exEntryA, exEntryB] },
    mutResp := okResp }

/-- C2 counterexample: with two ownership-marked entries for the same server
URL, the scan selects the second (last) one, not the first, and the update is
computed from it: the issued `PUT` body keeps the key data of the second
entry. -/
theorem C2_counterexample :
    ownedMatch "srv".data exEntryA ∧
    scanClusters "srv".data [exEntryA, exEntryB] ≠ some exEntryA ∧
    scanClusters "srv".data [exEntryA, exEntryB] = some exEntryB ∧
    (ReconcileV1 exCfg exReq exEnvC2).requests.map (fun r => (r.method, r.body)) =
      [("GET".data, none),
       ("PUT".data, some { exEntryB with
          ClusterName := "c1".data,
          ClusterConfig := { TLSClientConfig :=
            { CaData := "QUFB".data, CertData := "QkJC".data, KeyData := "keyB".data } } })] := by
  decide

/-- C2 (amended): when more than one ownership-marked entry of the listing
has the server URL of the built target, the scan selects the last such entry
encountered as the authoritative existing entry (the loop has no break, so
later matches overwrite earlier ones). -/
theorem C2_last_match (server : GoStr) (l₁ l₂ : List ArgoCluster) (c : ArgoCluster)
    (hc : ownedMatch server c) (h₂ : ∀ x ∈ l₂, ¬ ownedMatch server x) :
    scanClusters server (l₁ ++ c :: l₂) = some c := by
  unfold scanClusters
  rw [List.foldl_append, List.foldl_cons, if_pos hc]
  exact scanClusters_no_match server l₂ (some c) h₂

theorem C2_last_match_witness :
    scanClusters "srv".data ([exEntryB] ++ exEntryA :: []) = some exEntryA :=
  C2_last_match "srv".data [exEntryB] [] exEntryA (by decide) (by decide)

/-- A listing entry with the server URL of the built target but without the
ownership marker. -/
def exEntryUnowned : ArgoCluster :=
  { NamespacedName := { name := "u".data, nspace := "argocd".data },
    ClusterName := "nameU".data, ClusterServer := "srv".data,
    ClusterLabels := [("capi-to-argocd/owned".data, "false".data)],
    ClusterConfig := { TLSClientConfig :=
      { CaData := "caU".data, CertData := "certU".data, KeyData := "keyU".data } } }

/-- Environment whose listing holds only the unmarked same-server entry. -/
def exEnvC4 : RecEnv :=
  { getResult := GetResult.found exSecret, deleteResp := okResp,
    listResp := { transportErr := false, readErr := false, decode := some [exEntryUnowned] },
    mutResp := okResp }

/-- C4: a listing entry matches exactly when its server URL equals the built
server URL and its labels carry the ownership marker with value `true`; when
every entry with the matching server URL lacks the marker (or carries another
value), the cycle issues the `GET` and then a single `POST` of the built
target, never a `PUT`, and no request is derived from the unmarked
entries. -/
theorem C4_unmarked_is_unmatched (cfg : Config) (req : NamespacedName) (env : RecEnv)
    (s : CapiSecret) (k : CapiKubeConfig) (l : List ArgoCluster)
    (hn : ValidateCapiNaming req = true)
    (hg : env.getResult = GetResult.found s)
    (ht : ValidateCapiSecret s = true)
    (hp : s.parse = some k)
    (hl : env.listResp = { transportErr := false, readErr := false, decode := some l })
    (hm : ∀ c ∈ l, c.ClusterServer = (buildArgo cfg req s k).ClusterServer →
      labelGet c.ClusterLabels "capi-to-argocd/owned".data ≠ "true".data) :
    (∀ server : GoStr, ∀ c : ArgoCluster,
      (ownedMatch server c ↔ c.ClusterServer = server ∧
        labelGet c.ClusterLabels "capi-to-argocd/owned".data = "true".data)) ∧
    (ReconcileV1 cfg req env).requests =
      [mkRequestV1 cfg "GET".data (clustersURL cfg) none,
       mkRequestV1 cfg "POST".data (clustersURL cfg) (some (buildArgo cfg req s k))] := by
  refine ⟨fun server c => Iff.rfl, ?_⟩
  have hscan : scanClusters (buildArgo cfg req s k).ClusterServer l = none := by
    apply scanClusters_none
    intro x hx hmx
    exact hm x hx hmx.1 hmx.2
  cases hmr : sendRequestErr env.mutResp <;>
    simp [ReconcileV1, hn, hg, ht, hp, hl, hscan, hmr]

theorem C4_unmarked_is_unmatched_witness :
    (ReconcileV1 exCfg exReq exEnvC4).requests =
      [mkRequestV1 exCfg "GET".data (clustersURL exCfg) none,
       mkRequestV1 exCfg "POST".data (clustersURL exCfg)
         (some (buildArgo exCfg exReq exSecret exK))] :=
  (C4_unmarked_is_unmatched exCfg exReq exEnvC4 exSecret exK [exEntryUnowned]
    (by decide) (by decide) (by decide) (by decide) (by decide) (by decide)).2

theorem diffExisting_fst (e a : ArgoCluster) :
    (diffExisting e a).1 = true ↔
      ¬ (e.ClusterName = a.ClusterName ∧
         e.ClusterConfig.TLSClientConfig.CaData = a.ClusterConfig.TLSClientConfig.CaData ∧
         e.ClusterConfig.TLSClientConfig.CertData = a.ClusterConfig.TLSClientConfig.CertData) := by
  obtain ⟨enn, ecn, ecs, ecl, ⟨⟨eca, ece, eck⟩⟩⟩ := e
  obtain ⟨ann, acn, acs, acl, ⟨⟨aca, ace, ack⟩⟩⟩ := a
  unfold diffExisting
  dsimp only
  split_ifs <;> simp_all

theorem diffExisting_snd (e a : ArgoCluster) :
    (diffExisting e a).2 =
      { e with
        ClusterName := a.ClusterName,
        ClusterConfig := { TLSClientConfig :=
          { CaData := a.ClusterConfig.TLSClientConfig.CaData,
            CertData := a.ClusterConfig.TLSClientConfig.CertData,
            KeyData := e.ClusterConfig.TLSClientConfig.KeyData } } } := by
  obtain ⟨enn, ecn, ecs, ecl, ⟨⟨eca, ece, eck⟩⟩⟩ := e
  obtain ⟨ann, acn, acs, acl, ⟨⟨aca, ace, ack⟩⟩⟩ := a
  unfold diffExisting
  dsimp only
  split_ifs <;> simp_all

theorem diffExisting_server (e a : ArgoCluster) :
    (diffExisting e a).2.ClusterServer = e.ClusterServer := by
  rw [diffExisting_snd]

/-- C3: when an ownership-marked entry matching the built server URL was
selected, the engine diffs exactly the target name, the CA data and the
certificate data; if the three are equal only the listing `GET` was issued
(no mutation); if any differs, one `PUT` is issued to the per-server
endpoint whose body is the existing entry with exactly those three fields
overwritten by the built values — its key data, server URL, labels and
identifier are kept from the existing entry.  Key data never participates
in the diff. -/
theorem C3_three_field_diff (cfg : Config) (req : NamespacedName) (env : RecEnv)
    (s : CapiSecret) (k : CapiKubeConfig) (l : List ArgoCluster) (existing : ArgoCluster)
    (hn : ValidateCapiNaming req = true)
    (hg : env.getResult = GetResult.found s)
    (ht : ValidateCapiSecret s = true)
    (hp : s.parse = some k)
    (hl : env.listResp = { transportErr := false, readErr := false, decode := some l })
    (hs : scanClusters (buildArgo cfg req s k).ClusterServer l = some existing) :
    ((existing.ClusterName = (buildArgo cfg req s k).ClusterName ∧
      existing.ClusterConfig.TLSClientConfig.CaData =
        (buildArgo cfg req s k).ClusterConfig.TLSClientConfig.CaData ∧
      existing.ClusterConfig.TLSClientConfig.CertData =
        (buildArgo cfg req s k).ClusterConfig.TLSClientConfig.CertData) →
      (ReconcileV1 cfg req env).requests = [mkRequestV1 cfg "GET".data (clustersURL cfg) none]) ∧
    (¬ (existing.ClusterName = (buildArgo cfg req s k).ClusterName ∧
        existing.ClusterConfig.TLSClientConfig.CaData =
          (buildArgo cfg req s k).ClusterConfig.TLSClientConfig.CaData ∧
        existing.ClusterConfig.TLSClientConfig.CertData =
          (buildArgo cfg req s k).ClusterConfig.TLSClientConfig.CertData) →
      (ReconcileV1 cfg req env).requests =
        [mkRequestV1 cfg "GET".data (clustersURL cfg) none,
         mkRequestV1 cfg "PUT".data (serverURL cfg existing.ClusterServer)
           (some { existing with
             ClusterName := (buildArgo cfg req s k).ClusterName,
             ClusterConfig := { TLSClientConfig :=
               { CaData := (buildArgo cfg req s k).ClusterConfig.TLSClientConfig.CaData,
                 CertData := (buildArgo cfg req s k).ClusterConfig.TLSClientConfig.CertData,
                 KeyData := existing.ClusterConfig.TLSClientConfig.KeyData } } })]) := by
  constructor
  · intro heq
    have hch : (diffExisting existing (buildArgo cfg req s k)).1 = false := by
      rw [Bool.eq_false_iff, Ne, diffExisting_fst]
      exact not_not_intro heq
    simp [ReconcileV1, hn, hg, ht, hp, hl, hs, hch]
  · intro hne
    have hch : (diffExisting existing (buildArgo cfg req s k)).1 = true :=
      (diffExisting_fst existing (buildArgo cfg req s k)).mpr hne
    have hput := diffExisting_snd existing (buildArgo cfg req s k)
    have hsrv := diffExisting_server existing (buildArgo cfg req s k)
    cases hmr : sendRequestErr env.mutResp <;>
      simp [ReconcileV1, hn, hg, ht, hp, hl, hs, hch, hmr, hput, hsrv]

/-- Environment whose listing holds exactly the one owned entry `exEntryA`. -/
def exEnvC3 : RecEnv :=
  { getResult := GetResult.found exSecret, deleteResp := okResp,
    listResp := { transportErr := false, readErr := false, decode := some [exEntryA] },
    mutResp := okResp }

theorem C3_three_field_diff_witness :
    (ReconcileV1 exCfg exReq exEnvC3).requests =
      [mkRequestV1 exCfg "GET".data (clustersURL exCfg) none,
       mkRequestV1 exCfg "PUT".data (serverURL exCfg exEntryA.ClusterServer)
         (some { exEntryA with
           ClusterName := (buildArgo exCfg exReq exSecret exK).ClusterName,
           ClusterConfig := { TLSClientConfig :=
             { CaData := (buildArgo exCfg exReq exSecret exK).ClusterConfig.TLSClientConfig.CaData,
               CertData := (buildArgo exCfg exReq exSecret exK).ClusterConfig.TLSClientConfig.CertData,
               KeyData := exEntryA.ClusterConfig.TLSClientConfig.KeyData } } })] :=
  (C3_three_field_diff exCfg exReq exEnvC3 exSecret exK [exEntryA] exEntryA
    (by decide) (by decide) (by decide) (by decide) (by decide) (by decide)).2 (by decide)

/-- A parsed kubeconfig whose TLS fields are not valid base64. -/
def exKBad : CapiKubeConfig :=
  { clusterName := "c1".data, server := "srv".data, caData := "!!!".data,
    certData := "!!!".data, keyData := "!!!".data }

/-- A fetched CAPI secret carrying the invalid TLS data. -/
def exSecretBad : CapiSecret :=
  { metaName := "c1-kubeconfig".data, metaNamespace := "ns1".data,
    secretType := "cluster.x-k8s.io/secret".data, parse := some exKBad }

/-- Environment with an empty listing, so the create path is taken. -/
def exEnvC1 : RecEnv :=
  { getResult := GetResult.found exSecretBad, deleteResp := okResp,
    listResp := { transportErr := false, readErr := false, decode := some [] },
    mutResp := okResp }

/-- C1 counterexample: the built target of this cycle has TLS fields that
are not valid base64, yet the cycle issues a `POST` carrying exactly that
target — the reconciler transmits without any TLS-validity gate. -/
theorem C1_counterexample :
    ValidateClusterTLSConfig
        (buildArgo exCfg exReq exSecretBad exKBad).ClusterConfig.TLSClientConfig ≠ none ∧
    (ReconcileV1 exCfg exReq exEnvC1).requests.map (fun r => (r.method, r.body)) =
      [("GET".data, none), ("POST".data, some (buildArgo exCfg exReq exSecretBad exKBad))] := by
  decide

/-- C1 (amended): the reconcile path never invokes the TLS validator; even
when the built target's TLS configuration is invalid, a cycle that reaches
an unmatched listing still issues the `POST` carrying that target. -/
theorem C1_no_tls_gate (cfg : Config) (req : NamespacedName) (env : RecEnv)
    (s : CapiSecret) (k : CapiKubeConfig) (l : List ArgoCluster)
    (hn : ValidateCapiNaming req = true)
    (hg : env.getResult = GetResult.found s)
    (ht : ValidateCapiSecret s = true)
    (hp : s.parse = some k)
    (hl : env.listResp = { transportErr := false, readErr := false, decode := some l })
    (hscan : scanClusters (buildArgo cfg req s k).ClusterServer l = none)
    (_hbad : ValidateClusterTLSConfig
      (buildArgo cfg req s k).ClusterConfig.TLSClientConfig ≠ none) :
    (ReconcileV1 cfg req env).requests =
      [mkRequestV1 cfg "GET".data (clustersURL cfg) none,
       mkRequestV1 cfg "POST".data (clustersURL cfg) (some (buildArgo cfg req s k))] := by
  cases hmr : sendRequestErr env.mutResp <;>
    simp [ReconcileV1, hn, hg, ht, hp, hl, hscan, hmr]

theorem C1_no_tls_gate_witness :
    (ReconcileV1 exCfg exReq exEnvC1).requests =
      [mkRequestV1 exCfg "GET".data (clustersURL exCfg) none,
       mkRequestV1 exCfg "POST".data (clustersURL exCfg)
         (some (buildArgo exCfg exReq exSecretBad exKBad))] :=
  C1_no_tls_gate exCfg exReq exEnvC1 exSecretBad exKBad []
    (by decide) (by decide) (by decide) (by decide) (by decide) (by decide) (by decide)

/-- Delete response with a non-`200 OK` status but clean transport and read. -/
def non200Resp : CallResp := { transportErr := false, readErr := false, status200 := false }

/-- Environment: source secret not found, delete response non-200. -/
def exEnvC5 : RecEnv :=
  { getResult := GetResult.notFound, deleteResp := non200Resp,
    listResp := { transportErr := false, readErr := false, decode := none },
    mutResp := okResp }

/-- The same environment with a 200 delete response. -/
def exEnvC5ok : RecEnv := { exEnvC5 with deleteResp := okResp }

/-- C5 counterexample: with garbage collection enabled and a non-200
response to the `DELETE`, the cycle ends cleanly, but nothing about the
non-200 status is logged — the only log line is the info success message,
and the whole outcome is identical to the 200 case (the status is never
inspected by this revision). -/
theorem C5_counterexample :
    (ReconcileV1 exCfgGC exReq exEnvC5).logs = [logI "Deleted successfully of ArgoSecret"] ∧
    (ReconcileV1 exCfgGC exReq exEnvC5).logs.filter (fun e => e.level == LogLevel.error) = [] ∧
    (ReconcileV1 exCfgGC exReq exEnvC5).err = none ∧
    ReconcileV1 exCfgGC exReq exEnvC5 = ReconcileV1 exCfgGC exReq exEnvC5ok := by
  decide

/-- C5 (amended): when the source-object fetch reports not-found, a cycle
with garbage collection disabled issues no registry call and returns no
error; with it enabled the cycle issues exactly one `DELETE` to the
per-namespace endpoint and terminates, and the status of the `DELETE`
response is never inspected: with clean transport and body read, the cycle
returns success with the same log trace whatever the status (a non-200 is
neither logged nor does it abort the cycle). -/
theorem C5_gc_delete (cfg : Config) (req : NamespacedName) (env : RecEnv)
    (hn : ValidateCapiNaming req = true)
    (hg : env.getResult = GetResult.notFound) :
    (cfg.enableGarbageCollection = false →
      ReconcileV1 cfg req env = { requests := [], logs := [], err := none }) ∧
    (cfg.enableGarbageCollection = true →
      (ReconcileV1 cfg req env).requests =
        [mkRequestV1 cfg "DELETE".data (deleteURL cfg req.nspace) none] ∧
      (env.deleteResp.transportErr = false → env.deleteResp.readErr = false →
        ReconcileV1 cfg req env =
          { requests := [mkRequestV1 cfg "DELETE".data (deleteURL cfg req.nspace) none],
            logs := [logI "Deleted successfully of ArgoSecret"], err := none })) := by
  obtain ⟨gr, ⟨dt, dr, ds⟩, lresp, mresp⟩ := env
  cases hg
  refine ⟨fun hgc => by simp [ReconcileV1, hn, hgc], fun hgc => ?_⟩
  cases dt <;> cases dr <;>
    simp [ReconcileV1, hn, hgc, sendRequestErr]

theorem C5_gc_delete_witness :
    (ReconcileV1 exCfgGC exReq exEnvC5).requests =
      [mkRequestV1 exCfgGC "DELETE".data (deleteURL exCfgGC exReq.nspace) none] ∧
    ReconcileV1 exCfgGC exReq exEnvC5 =
      { requests := [mkRequestV1 exCfgGC "DELETE".data (deleteURL exCfgGC exReq.nspace) none],
        logs := [logI "Deleted successfully of ArgoSecret"], err := none } := by
  have h := (C5_gc_delete exCfgGC exReq exEnvC5 (by decide) (by decide)).2 (by decide)
  exact ⟨h.1, h.2 (by decide) (by decide)⟩

/-- A mutating registry request: `POST`, `PUT` or `DELETE`. -/
def isMutating (r : HttpRequest) : Bool :=
  decide (r.method = "POST".data ∨ r.method = "PUT".data ∨ r.method = "DELETE".data)

theorem isMutating_GET (cfg : Config) (u : GoStr) (b : Option ArgoCluster) :
    isMutating (mkRequestV1 cfg ['G', 'E', 'T'] u b) = false := rfl

theorem isMutating_POST (cfg : Config) (u : GoStr) (b : Option ArgoCluster) :
    isMutating (mkRequestV1 cfg ['P', 'O', 'S', 'T'] u b) = true := rfl

theorem isMutating_PUT (cfg : Config) (u : GoStr) (b : Option ArgoCluster) :
    isMutating (mkRequestV1 cfg ['P', 'U', 'T'] u b) = true := rfl

theorem isMutating_DELETE (cfg : Config) (u : GoStr) (b : Option ArgoCluster) :
    isMutating (mkRequestV1 cfg ['D', 'E', 'L', 'E', 'T', 'E'] u b) = true := rfl

/-- C6: on every input and along every path of one cycle, the `sendRequest`
revision of `Reconcile` issues at most one mutating registry request. -/
theorem C6_at_most_one_mutation (cfg : Config) (req : NamespacedName) (env : RecEnv) :
    (ReconcileV1 cfg req env).requests.countP isMutating ≤ 1 := by
  unfold ReconcileV1
  repeat' split
  all_goals try simp [List.countP_cons, List.countP_nil, isMutating_GET, isMutating_POST,
    isMutating_PUT, isMutating_DELETE]
  all_goals repeat' split
  all_goals simp [List.countP_cons, List.countP_nil, isMutating_GET, isMutating_POST,
    isMutating_PUT, isMutating_DELETE]

theorem mkRequest_eq (cfg : Config) (m u : GoStr) (b : Option ArgoCluster) :
    mkRequestV1 cfg m u b = mkRequestV0 cfg m u b := by
  cases b <;> rfl

/-- Environment whose listing `GET` fails in transport. -/
def exEnvC10 : RecEnv :=
  { getResult := GetResult.found exSecret, deleteResp := okResp,
    listResp := { transportErr := true, readErr := false, decode := some [] },
    mutResp := okResp }

/-- C10 counterexample: on a transport failure of the listing `GET`, the
inline revision returns the transport error while the `sendRequest` revision
discards it and returns the JSON decode error produced by unmarshalling the
nil body — the two revisions do not return the same error. -/
theorem C10_counterexample :
    (ReconcileV0 exCfg exReq exEnvC10).err = some RecError.transportError ∧
    (ReconcileV1 exCfg exReq exEnvC10).err = some RecError.jsonDecodeError ∧
    (ReconcileV0 exCfg exReq exEnvC10).err ≠ (ReconcileV1 exCfg exReq exEnvC10).err := by
  decide

/-- C10 (amended): the two revisions issue the same sequence of registry
requests (method, URL, headers, body) on every input; their returned errors
coincide whenever the listing call does not fail in transport or body read
and no mutation-response body read fails (on a listing transport or read
failure both revisions fail but with different error values, and on a
mutation body-read failure the inline revision ignores it while the
`sendRequest` revision returns it). -/
theorem C10_request_equivalence (cfg : Config) (req : NamespacedName) (env : RecEnv) :
    (ReconcileV0 cfg req env).requests = (ReconcileV1 cfg req env).requests ∧
    (env.listResp.transportErr = false → env.listResp.readErr = false →
     env.deleteResp.readErr = false → env.mutResp.readErr = false →
     (ReconcileV0 cfg req env).err = (ReconcileV1 cfg req env).err) := by
  obtain ⟨gr, ⟨dt, dr, ds⟩, ⟨lt, lr, ld⟩, ⟨mt, mr, ms⟩⟩ := env
  cases hv : ValidateCapiNaming req with
  | false => simp [ReconcileV0, ReconcileV1, hv]
  | true =>
    cases gr with
    | otherErr => simp [ReconcileV0, ReconcileV1, hv]
    | notFound =>
      cases hgc : cfg.enableGarbageCollection with
      | false => simp [ReconcileV0, ReconcileV1, hv, hgc]
      | true =>
        cases dt <;> cases dr <;> cases ds <;>
          simp [ReconcileV0, ReconcileV1, hv, hgc, sendRequestErr, mkRequest_eq]
    | found s =>
      cases ht : ValidateCapiSecret s with
      | false => simp [ReconcileV0, ReconcileV1, hv, ht]
      | true =>
        cases hp : s.parse with
        | none => simp [ReconcileV0, ReconcileV1, hv, ht, hp]
        | some k =>
          cases lt with
          | true => simp [ReconcileV0, ReconcileV1, hv, ht, hp, mkRequest_eq]
          | false =>
            cases lr with
            | true => simp [ReconcileV0, ReconcileV1, hv, ht, hp, mkRequest_eq]
            | false =>
              cases ld with
              | none => simp [ReconcileV0, ReconcileV1, hv, ht, hp, mkRequest_eq]
              | some clusters =>
                cases hscan : scanClusters (buildArgo cfg req s k).ClusterServer clusters with
                | none =>
                  cases mt <;> cases mr <;>
                    simp [ReconcileV0, ReconcileV1, hv, ht, hp, hscan, sendRequestErr,
                      mkRequest_eq]
                | some existing =>
                  cases hch : (diffExisting existing (buildArgo cfg req s k)).1 <;>
                    cases mt <;> cases mr <;> cases ms <;>
                      simp [ReconcileV0, ReconcileV1, hv, ht, hp, hscan, hch, sendRequestErr,
                        mkRequest_eq]

theorem C10_request_equivalence_witness :
    (ReconcileV0 exCfg exReq exEnvC2).requests = (ReconcileV1 exCfg exReq exEnvC2).requests ∧
    (ReconcileV0 exCfg exReq exEnvC2).err = (ReconcileV1 exCfg exReq exEnvC2).err :=
  ⟨(C10_request_equivalence exCfg exReq exEnvC2).1,
   (C10_request_equivalence exCfg exReq exEnvC2).2 (by decide) (by decide) (by decide) (by decide)⟩
